import Mathlib

/-!
Verification of the aprsd worker-thread core (`aprsd/threads.py`) and the
statistics singleton (`aprsd/stats/app.py`).

The Python source is shallowly embedded: each worker's `loop` body becomes a
pure Lean function from its inputs (configuration, the outcome of the blocking
transport/queue operation, the plugin dispatch result) to a record of its
observable effects (messages enqueued to the tx queue, tracker operations,
statistics increments, sleeps, resets, and the boolean the loop returns).
Collaborators that live in modules outside the provided sources
(`messaging.MsgTrack`, the send-side tracker insertion, the APRS-IS filter
semantics) are modelled from the specification and marked as such in their
doc comments.
-/

namespace Aprsd

/-- A decoded inbound packet as consumed by `APRSDRXThread.process_packet`:
the dict fields read there are `from`, `addresse`, `message_text`, `msgNo`
and `response` (plus `raw`, used only for logging). -/
structure Packet where
  fromcall : String
  addresse : Option String
  message_text : Option String
  msgNo : Option String
  response : Option String
  raw : String
deriving Repr, DecidableEq

/-- One element of the sequence returned by `plugin.PluginManager.run` as the
reply loop in `process_packet` discriminates it: a Python `list` of texts,
the `messaging.NULL_MESSAGE` sentinel, or a single reply text. -/
inductive PluginReply where
  | multiple (texts : List String)
  | nullMessage
  | text (t : String)
deriving Repr, DecidableEq

/-- An item put on `msg_queues["tx"]` by `process_packet`:
`messaging.AckMessage(login, fromcall, msg_id=msg_id)` or
`messaging.TextMessage(login, fromcall, body)`. -/
inductive OutMsg where
  | ack (fromc toc : String) (msgId : String)
  | text (fromc toc : String) (body : String)
deriving Repr, DecidableEq

/-- The slice of the configuration `process_packet` reads:
`config["aprs"]["login"]`, the daemon's own callsign. -/
structure Config where
  login : String
deriving Repr, DecidableEq

/-- The fallback reply built when the message was for us and no plugin
replied (`threads.py` line 278). -/
def usageReply : String := "Usage: weather, locate [call], time, fortune, ping"

/-- The apology reply built when a plugin raised (`threads.py` line 290). -/
def pluginFailReply : String := "A Plugin failed! try again?"

/-- Observable effects of one `process_packet` call: the items put on the tx
queue in order, the tracker removal performed by `process_ack_packet` (if
that path ran, carrying the `msgNo` value passed to `tracker.remove`),
whether the ack-received / message-received statistics were bumped, and
whether `PluginManager.run` was invoked. -/
structure RxOutcome where
  tx : List OutMsg
  ackRemove : Option (Option String)
  ackRxInc : Bool
  msgsRxInc : Bool
  dispatched : Bool
deriving Repr, DecidableEq

/-- The reply messages enqueued by the `for reply in results` loop of
`process_packet`, in order: a list reply contributes one `TextMessage` per
element, `NULL_MESSAGE` contributes nothing, and any other reply contributes
one `TextMessage`. -/
def replyMessages (login fromcall : String) (results : List PluginReply) : List OutMsg :=
  results.flatMap fun reply =>
    match reply with
    | .multiple subs => subs.map fun subreply => OutMsg.text login fromcall subreply
    | .nullMessage => []
    | .text t => [OutMsg.text login fromcall t]

/-- The value of the `replied` flag after the `for reply in results` loop:
every iteration (list, `NULL_MESSAGE`, or text) sets it to `True`, so it is
true exactly when `results` is non-empty. -/
def repliedFlag (results : List PluginReply) : Bool :=
  !results.isEmpty

/-- `APRSDRXThread.process_packet` embedded as a function of the packet, the
configuration and the dispatch outcome (`pm.run(packet)` either returns a
result list or raises; the raise is caught by the `except Exception`
handler). Mirrors `threads.py` lines 202-298. -/
def processPacket (cfg : Config) (pmRun : Packet → Except String (List PluginReply))
    (p : Packet) : RxOutcome :=
  let fromcall := p.fromcall
  let tocall := p.addresse
  let msg_id := p.msgNo.getD "0"
  let msg_response := p.response
  if tocall = some cfg.login ∧ msg_response = some "ack" then
    -- process_ack_packet: tracker.remove(packet.get("msgNo")); ack_rx_inc()
    { tx := [], ackRemove := some p.msgNo, ackRxInc := true,
      msgsRxInc := true, dispatched := false }
  else
    let ackTx : List OutMsg :=
      if tocall = some cfg.login then [OutMsg.ack cfg.login fromcall msg_id] else []
    match pmRun p with
    | .ok results =>
      let replyTx := replyMessages cfg.login fromcall results
      let usageTx : List OutMsg :=
        if tocall = some cfg.login ∧ repliedFlag results = false then
          [OutMsg.text cfg.login fromcall usageReply]
        else []
      { tx := ackTx ++ replyTx ++ usageTx, ackRemove := none, ackRxInc := false,
        msgsRxInc := true, dispatched := true }
    | .error _ =>
      let errTx : List OutMsg :=
        if tocall = some cfg.login then [OutMsg.text cfg.login fromcall pluginFailReply]
        else []
      { tx := ackTx ++ errTx, ackRemove := none, ackRxInc := false,
        msgsRxInc := true, dispatched := true }

/-- The tx-queue contents produced by processing a sequence of packets in
arrival order: the consumer callback runs once per packet and each call
appends its puts to the shared queue. -/
def processPackets (cfg : Config) (pmRun : Packet → Except String (List PluginReply))
    (ps : List Packet) : List OutMsg :=
  ps.flatMap fun p => (processPacket cfg pmRun p).tx

/-- Whether an enqueued item is the fallback usage-help message. -/
def isUsageMsg : OutMsg → Bool
  | .ack _ _ _ => false
  | .text _ _ body => body = usageReply

/-- Whether an enqueued item is the plugin-failure error notice. -/
def isErrorNotice : OutMsg → Bool
  | .ack _ _ _ => false
  | .text _ _ body => body = pluginFailReply

/-- Modelled from the spec: `messaging.MsgTrack.remove` (the `messaging`
module is not among the provided sources) — the tracker is a keyed table
from message id to outbound message; `remove` deletes the entry for the id
if present, and an absent id (or a missing `msgNo`, i.e. `None`) is a
no-op. -/
def msgTrackRemove (t : List (String × α)) (mid : Option String) : List (String × α) :=
  match mid with
  | none => t
  | some i => t.filter fun e => e.1 ≠ i

/-- Apply the tracker effect recorded in an `RxOutcome` to a tracker state:
the only tracker operation `process_packet` itself performs is the
`tracker.remove(ack_num)` of the ack path. -/
def applyTracker (t : List (String × α)) (o : RxOutcome) : List (String × α) :=
  match o.ackRemove with
  | none => t
  | some mid => msgTrackRemove t mid

/-- Modelled from the spec: whether the `send()` of an enqueued outbound
message inserts it into the MessageTracker (`messaging.AckMessage.send` /
`messaging.TextMessage.send` are not among the provided sources) — an ack
the daemon sends is fire-and-forget and never tracked, while a substantive
text reply is inserted for ack tracking. -/
def insertsIntoTracker : OutMsg → Bool
  | .ack _ _ _ => false
  | .text _ _ _ => true

/-! ### The TX worker loop (`APRSDTXThread.loop`, threads.py 307-314) -/

/-- A Python exception as the TX loop discriminates them: the `queue.Empty`
caught by the `except` clause, or any other exception (carrying its
message). -/
inductive PyError where
  | queueEmpty
  | sendFailed (msg : String)
deriving Repr, DecidableEq

/-- What `self.msg_queues["tx"].get(timeout=5)` produced: a timeout (it
raised `queue.Empty`), or an item whose subsequent `send()` either
succeeded (`none`) or raised the given exception. -/
inductive TxPop where
  | timeout
  | item (sendOutcome : Option PyError)
deriving Repr, DecidableEq

/-- Observable outcome of one `APRSDTXThread.loop` call: whether a popped
item's `send()` was attempted, and either the returned boolean or the
exception that escaped the loop body. -/
structure TxLoopOutcome where
  sendAttempted : Bool
  result : Except PyError Bool
deriving Repr

/-- `APRSDTXThread.loop` embedded: the `try` block pops with a 5s timeout
and calls `send()` on the item; the sole `except queue.Empty: pass` clause
catches the timeout (and a `queue.Empty` raised by `send()`, since `send()`
sits inside the same `try`); any other exception from `send()` escapes the
method. The method returns `True` on every non-raising path. -/
def txLoop (pop : TxPop) : TxLoopOutcome :=
  match pop with
  | .timeout => { sendAttempted := false, result := .ok true }
  | .item none => { sendAttempted := true, result := .ok true }
  | .item (some e) =>
    match e with
    | .queueEmpty => { sendAttempted := true, result := .ok true }
    | .sendFailed m => { sendAttempted := true, result := .error (.sendFailed m) }

/-! ### The RX worker loop (`APRSDRXThread.loop`, threads.py 144-185) -/

/-- The slice of the configuration `APRSDRXThread.loop` reads:
whether `"watch_list"` is a key of `config["aprsd"]`, its
`.get("enabled", False)` flag and its `.get("callsigns", [])` list. -/
structure WatchConfig where
  watchListPresent : Bool
  enabled : Bool
  callsigns : List String
deriving Repr, DecidableEq

/-- What the blocking `aprs_client.consumer(...)` call did: return normally,
or raise `aprslib.exceptions.ConnectionDrop`. -/
inductive ConsumeOutcome where
  | ok
  | connectionDrop
deriving Repr, DecidableEq

/-- Observable effects of one `APRSDRXThread.loop` call: the filter string
passed to `set_filter` (if any), the empty-watch-list warning, the
connection-drop error log, the `time.sleep` performed, whether
`client.Client().reset()` was called, and the returned boolean. -/
structure RxLoopOutcome where
  filterStr : Option String
  warnedEmptyWatchList : Bool
  loggedConnDrop : Bool
  sleptSeconds : Option Nat
  clientReset : Bool
  result : Bool
deriving Repr, DecidableEq

/-- `APRSDRXThread.loop` embedded: when the watch list is present and
enabled, a non-empty callsign list is turned into the filter string
`"p/" + "/".join(watch_list)` and passed to `set_filter`, while an empty
list only logs a warning; then the consumer runs, and a `ConnectionDrop`
is logged, followed by `time.sleep(5)` and `client.Client().reset()`; the
method returns `True` on every path. -/
def rxLoop (cfg : WatchConfig) (consume : ConsumeOutcome) : RxLoopOutcome :=
  let fw : Option String × Bool :=
    if cfg.watchListPresent && cfg.enabled then
      if cfg.callsigns.isEmpty then (none, true)
      else (some ("p/" ++ String.intercalate "/" cfg.callsigns), false)
    else (none, false)
  match consume with
  | .ok =>
    { filterStr := fw.1, warnedEmptyWatchList := fw.2, loggedConnDrop := false,
      sleptSeconds := none, clientReset := false, result := true }
  | .connectionDrop =>
    { filterStr := fw.1, warnedEmptyWatchList := fw.2, loggedConnDrop := true,
      sleptSeconds := some 5, clientReset := true, result := true }

/-- The sender allow-list in force after `APRSDRXThread.loop` configured the
filter: the callsign list when the watch list is present, enabled and
non-empty, otherwise no restriction. -/
def watchFilter (cfg : WatchConfig) : Option (List String) :=
  if cfg.watchListPresent && cfg.enabled && !cfg.callsigns.isEmpty then
    some cfg.callsigns
  else none

/-- Modelled from the spec: the transport collaborator's filtered consume
(the APRS-IS server side of `set_filter` is outside the provided sources) —
with a watch-list filter in force, the consumer callback is invoked only
for packets whose sender is in the configured list; with no filter, every
arriving packet is delivered. -/
def deliveredPackets (watch : Option (List String)) (arriving : List Packet) : List Packet :=
  match watch with
  | none => arriving
  | some l => arriving.filter fun p => l.contains p.fromcall

/-- The packets on which `PluginManager.run` is invoked, out of a stream of
arriving packets: those the filtered transport delivers to
`process_packet` and that the ack short-circuit does not divert. -/
def dispatchedPackets (cfg : Config) (pmRun : Packet → Except String (List PluginReply))
    (watch : Option (List String)) (arriving : List Packet) : List Packet :=
  (deliveredPackets watch arriving).filter fun p => (processPacket cfg pmRun p).dispatched

/-! ### The thread registry (`APRSDThreadList`, threads.py 28-55) -/

/-- A call the registry can make on a thread object: the cooperative
`th.stop()` of `stop_all`, or a `join` (which `stop_all` never performs —
its loop body is exactly `th.stop()`). -/
inductive ThreadCall (α : Type) where
  | stopCall (t : α)
  | joinCall (t : α)
deriving Repr, DecidableEq

/-- `APRSDThreadList.stop_all` embedded: under the lock it iterates
`threads_list` and calls `th.stop()` on each member, in list order; it
performs no join and does not modify the membership. The result is the
trace of calls made and the membership afterwards. -/
def stopAll (threads_list : List α) : List (ThreadCall α) × List α :=
  (threads_list.map ThreadCall.stopCall, threads_list)

/-! ### The worker run loop (`APRSDThread.run`, threads.py 58-78) -/

/-- An observable event of `APRSDThread.run`: an invocation of the abstract
`loop()` recording the boolean it returned, or the final
`APRSDThreadList().remove(self)`. -/
inductive RunEvent where
  | loopCall (result : Bool)
  | unregister
deriving Repr, DecidableEq

/-- `APRSDThread.run` embedded as a trace semantics. The schedule lists, for
each potential iteration, whether an external `stop()` lands before the
`while not self.thread_stop` check (external stops take effect only at
that check, so an in-flight `loop()` always finishes and is never cut
short) and what `loop()` would return. Each iteration checks the flag; if
set, the loop exits and the thread removes itself from the registry. A
`False` from `loop()` makes the body call `self.stop()`, setting the flag
for the next check. If the schedule runs out with the flag still unset,
the thread is still running (second component `false`, no unregister
event yet). -/
def runSteps (stopFlag : Bool) (sched : List (Bool × Bool)) : List RunEvent × Bool :=
  match sched with
  | [] =>
    if stopFlag then ([RunEvent.unregister], true) else ([], false)
  | (extStop, r) :: rest =>
    if stopFlag || extStop then ([RunEvent.unregister], true)
    else
      let next := runSteps (!r) rest
      (RunEvent.loopCall r :: next.1, next.2)

/-! ### The statistics singleton (`APRSDStats`, stats/app.py 13-47) -/

/-- The class-level state of the `APRSDStats` singleton: `_instance` (the
identity of the object `__new__` returns, `none` before the first
construction) and the instance's `start_time`. Instance identities and
times are modelled as naturals. -/
structure StatsSingleton where
  inst : Option Nat
  start_time : Nat
deriving Repr, DecidableEq

/-- Constructing `APRSDStats()` embedded: `__new__` returns the existing
`_instance` if there is one and otherwise allocates a fresh object, and
Python then runs `__init__` on the returned object on *every*
construction, setting `self.start_time = datetime.datetime.now()`. The
result is the identity of the returned instance and the new state. -/
def statsConstruct (s : StatsSingleton) (fresh now : Nat) : Nat × StatsSingleton :=
  let id := match s.inst with
    | some i => i
    | none => fresh
  (id, { inst := some id, start_time := now })

/-- `APRSDStats.uptime` embedded: `datetime.datetime.now() - self.start_time`. -/
def statsUptime (s : StatsSingleton) (now : Nat) : Nat :=
  now - s.start_time

/-- The dict returned by `APRSDStats.stats` restricted to the fields that
depend on this module's state: `uptime` is `self.uptime()`; version,
callsign and the memory readings are passed through from their sources. -/
structure StatsDict where
  version : String
  uptime : Nat
  callsign : String
  memory_current : Nat
  memory_peak : Nat
deriving Repr, DecidableEq

/-- `APRSDStats.stats` embedded (the `serializable` flag only stringifies
the uptime and is irrelevant to its value). -/
def statsDict (s : StatsSingleton) (now : Nat) (version callsign : String)
    (current peak : Nat) : StatsDict :=
  { version := version, uptime := statsUptime s now, callsign := callsign,
    memory_current := current, memory_peak := peak }

/-! ### Concrete inputs used by counterexamples and witnesses -/

/-- The daemon configuration with own callsign `MYCALL`. -/
def cfgMy : Config := { login := "MYCALL" }

/-- A content packet from `N0CALL` addressed to the daemon. -/
def packetPing : Packet :=
  { fromcall := "N0CALL", addresse := some "MYCALL", message_text := some "ping",
    msgNo := some "5", response := none, raw := "rawpkt" }

/-- An ack packet from `N0CALL` addressed to the daemon, acking message id 5. -/
def packetAck : Packet :=
  { fromcall := "N0CALL", addresse := some "MYCALL", message_text := none,
    msgNo := some "5", response := some "ack", raw := "rawack" }

/-- A content packet from sender `C`, not on the `["A", "B"]` watch list. -/
def packetFromC : Packet :=
  { fromcall := "C", addresse := some "MYCALL", message_text := some "hello",
    msgNo := some "2", response := none, raw := "rawc" }

/-- A dispatcher in which every plugin declined: `run` returns an empty list. -/
def pmEmptyReply : Packet → Except String (List PluginReply) := fun _ => .ok []

/-- A dispatcher whose single plugin handled the packet but returned
`NULL_MESSAGE`. -/
def pmNullReply : Packet → Except String (List PluginReply) :=
  fun _ => .ok [PluginReply.nullMessage]

/-- A dispatcher whose single plugin replies with the text `PONG`. -/
def pmPong : Packet → Except String (List PluginReply) :=
  fun _ => .ok [PluginReply.text "PONG"]

/-- A dispatcher whose invocation raises. -/
def pmRaise : Packet → Except String (List PluginReply) := fun _ => .error "boom"

/-- A watch-list configuration: enabled, callsigns `["A", "B"]`. -/
def watchAB : WatchConfig :=
  { watchListPresent := true, enabled := true, callsigns := ["A", "B"] }

/-! ### C1 — the TX worker and send failures -/

/-- C1 counterexample: the claim says a failure raised by a popped item's
send operation is caught inside `loop` and `loop` still returns true; but
the only handler is `except queue.Empty`, so a send failure that is not
`queue.Empty` escapes `APRSDTXThread.loop` and the call does not return
true. -/
theorem c1_send_failure_escapes :
    (txLoop (TxPop.item (some (PyError.sendFailed "radio down")))).result
      = Except.error (PyError.sendFailed "radio down") ∧
    (txLoop (TxPop.item (some (PyError.sendFailed "radio down")))).result
      ≠ Except.ok true := by
  refine ⟨rfl, ?_⟩
  simp [txLoop]

/-- C1 (amended): on a pop timeout (the 5s bounded wait raising
`queue.Empty`) `loop` returns true without attempting any send; on a popped
item whose send succeeds it returns true; a failure raised by the item's
send operation is caught only when it is the `queue.Empty` exception (the
sole except clause), and any other send failure propagates out of `loop`
uncaught and unlogged. -/
theorem c1_tx_loop_behaviour :
    ((txLoop TxPop.timeout).result = Except.ok true ∧
      (txLoop TxPop.timeout).sendAttempted = false) ∧
    (txLoop (TxPop.item none)).result = Except.ok true ∧
    (txLoop (TxPop.item (some PyError.queueEmpty))).result = Except.ok true ∧
    (∀ m : String, (txLoop (TxPop.item (some (PyError.sendFailed m)))).result
      = Except.error (PyError.sendFailed m)) :=
  ⟨⟨rfl, rfl⟩, rfl, rfl, fun _ => rfl⟩

/-! ### C6 — RX connection-loss recovery -/

/-- C6: for every watch-list configuration, when the consumer raises a
connection drop, `APRSDRXThread.loop` logs the error, sleeps the fixed 5s
backoff, resets the client so the next `get_client()` reconnects, and
returns true — a connection loss never terminates the RX loop. -/
theorem c6_connection_drop_self_heals (cfg : WatchConfig) :
    (rxLoop cfg ConsumeOutcome.connectionDrop).loggedConnDrop = true ∧
    (rxLoop cfg ConsumeOutcome.connectionDrop).sleptSeconds = some 5 ∧
    (rxLoop cfg ConsumeOutcome.connectionDrop).clientReset = true ∧
    (rxLoop cfg ConsumeOutcome.connectionDrop).result = true :=
  ⟨rfl, rfl, rfl, rfl⟩

/-! ### C7 — registry stop_all -/

/-- C7: for every registry membership (a list of distinct threads), after
`stop_all` each thread registered at the time of the call has had `stop()`
invoked exactly once, unregistered threads are not invoked, `stop_all`
performs no join (it does not wait for any thread to exit), and the
membership is unchanged. -/
theorem c7_stop_all_once {α : Type} [DecidableEq α] (reg : List α)
    (hnd : reg.Nodup) :
    (∀ t ∈ reg, ((stopAll reg).1.count (ThreadCall.stopCall t)) = 1) ∧
    (∀ t : α, t ∉ reg → ((stopAll reg).1.count (ThreadCall.stopCall t)) = 0) ∧
    (∀ t : α, ThreadCall.joinCall t ∉ (stopAll reg).1) ∧
    (stopAll reg).2 = reg := by
  have hinj : Function.Injective (ThreadCall.stopCall (α := α)) := by
    intro a b h
    cases h
    rfl
  refine ⟨?_, ?_, ?_, rfl⟩
  · intro t ht
    rw [stopAll, List.count_map_of_injective reg ThreadCall.stopCall hinj t]
    exact List.count_eq_one_of_mem hnd ht
  · intro t ht
    rw [stopAll, List.count_map_of_injective reg ThreadCall.stopCall hinj t]
    exact List.count_eq_zero.mpr ht
  · intro t h
    rw [stopAll] at h
    rcases List.mem_map.mp h with ⟨u, _, hu⟩
    cases hu

/-- C7 witness: on the concrete registry `[0, 1, 2]`, `stop_all` invokes
`stop()` on thread 1 exactly once. -/
theorem c7_stop_all_once_witness :
    ((stopAll [0, 1, 2]).1.count (ThreadCall.stopCall 1)) = 1 :=
  (c7_stop_all_once [0, 1, 2] (by decide)).1 1 (by decide)

/-! ### C8 — the cooperative run loop -/

/-- Any exiting run of the loop ends with the self-unregistration event. -/
theorem runSteps_exit_ends_unregister (flag : Bool) (sched : List (Bool × Bool))
    (h : (runSteps flag sched).2 = true) :
    (runSteps flag sched).1.getLast? = some RunEvent.unregister := by
  induction sched generalizing flag with
  | nil =>
    cases flag with
    | false => simp [runSteps] at h
    | true => simp [runSteps]
  | cons step rest ih =>
    obtain ⟨extStop, r⟩ := step
    by_cases hf : (flag || extStop) = true
    · simp [runSteps, hf]
    · rw [runSteps] at h ⊢
      rw [if_neg hf] at h ⊢
      dsimp only at h ⊢
      have := ih (!r) h
      rcases hne : (runSteps (!r) rest).1 with _ | ⟨e, es⟩
      · rw [hne] at this
        simp at this
      · rw [hne] at this
        rw [List.getLast?_cons_cons]
        exact this

/-- C8: the run loop calls `loop()` only while the stop flag is unset (a
set flag, or an external `stop()` landing before the check, yields no
further `loop()` call and immediate unregistration); a `loop()` returning
false stops the thread after that call; an external stop arriving while a
`loop()` call is scheduled next takes effect only at the following check,
so the in-flight call finishes; and every exiting run ends by
unregistering from the thread registry. -/
theorem c8_run_loop (sched rest : List (Bool × Bool)) (r : Bool) :
    runSteps true sched = ([RunEvent.unregister], true) ∧
    runSteps false ((true, r) :: rest) = ([RunEvent.unregister], true) ∧
    runSteps false ((false, false) :: rest)
      = ([RunEvent.loopCall false, RunEvent.unregister], true) ∧
    runSteps false ((false, true) :: (true, r) :: rest)
      = ([RunEvent.loopCall true, RunEvent.unregister], true) ∧
    ((runSteps false sched).2 = true →
      (runSteps false sched).1.getLast? = some RunEvent.unregister) := by
  have hstop : ∀ s : List (Bool × Bool), runSteps true s = ([RunEvent.unregister], true) := by
    intro s
    cases s with
    | nil => simp [runSteps]
    | cons a rest => simp [runSteps]
  refine ⟨hstop sched, ?_, ?_, ?_, fun h => runSteps_exit_ends_unregister false sched h⟩
  · simp [runSteps]
  · rw [runSteps]
    simp [hstop rest]
  · rw [runSteps]
    simp [runSteps, hstop]

/-- C8 witness: on the concrete schedule where the first `loop()` call
returns false, the run exits and its trace ends with unregistration. -/
theorem c8_run_loop_witness :
    (runSteps false [(false, false)]).1.getLast? = some RunEvent.unregister :=
  (c8_run_loop [(false, false)] [] true).2.2.2.2 (by decide)

/-! ### C10 — the statistics singleton and its restarting clock -/

/-- C10: every construction of `APRSDStats()` returns the identical
instance, but each construction re-runs `__init__` and resets `start_time`
to the current time; hence after a second construction at time `t2`, the
uptime reported at time `t` by `uptime()` and by `stats()` is `t - t2`,
measured from the most recent construction — strictly less than the
`t - t1` that measuring from the first construction would give. -/
theorem c10_stats_singleton_reinit (s0 : StatsSingleton) (f1 f2 t1 t2 t : Nat)
    (version callsign : String) (current peak : Nat)
    (h12 : t1 < t2) (h2t : t2 ≤ t) :
    (statsConstruct (statsConstruct s0 f1 t1).2 f2 t2).1
      = (statsConstruct s0 f1 t1).1 ∧
    (statsConstruct (statsConstruct s0 f1 t1).2 f2 t2).2.start_time = t2 ∧
    statsUptime (statsConstruct (statsConstruct s0 f1 t1).2 f2 t2).2 t = t - t2 ∧
    (statsDict (statsConstruct (statsConstruct s0 f1 t1).2 f2 t2).2 t
        version callsign current peak).uptime = t - t2 ∧
    t - t2 < t - t1 := by
  refine ⟨rfl, rfl, rfl, rfl, ?_⟩
  omega

/-- C10 witness: constructing at times 10 then 20 and reading at time 50
reports uptime 30, not the 40 measured from the first construction. -/
theorem c10_stats_singleton_reinit_witness :
    statsUptime (statsConstruct (statsConstruct ⟨none, 0⟩ 1 10).2 2 20).2 50 = 50 - 20 :=
  (c10_stats_singleton_reinit ⟨none, 0⟩ 1 2 10 20 50 "v" "MYCALL" 0 0
    (by decide) (by decide)).2.2.1

/-! ### C2 — the usage fallback -/

/-- A content packet addressed to the daemon for which the dispatcher
returned the empty result list produces the ack followed by the usage
fallback. -/
theorem processPacket_empty_results (cfg : Config)
    (pmRun : Packet → Except String (List PluginReply)) (p : Packet)
    (haddr : p.addresse = some cfg.login) (hnoack : p.response ≠ some "ack")
    (hempty : pmRun p = .ok []) :
    (processPacket cfg pmRun p).tx
      = [OutMsg.ack cfg.login p.fromcall (p.msgNo.getD "0"),
         OutMsg.text cfg.login p.fromcall usageReply] := by
  rw [processPacket]
  rw [if_neg (by simp [haddr, hnoack])]
  rw [hempty]
  simp [haddr, replyMessages, repliedFlag]

/-- C2 counterexample: the claim reads "no plugin yields a reply" as
covering plugins returning `NoReply`, but a `NULL_MESSAGE` result sets the
`replied` flag, so a single packet addressed to the daemon whose only
plugin result is `NULL_MESSAGE` produces zero fallback usage messages, not
the one the claim requires. -/
theorem c2_null_message_suppresses_usage :
    pmNullReply packetPing = Except.ok [PluginReply.nullMessage] ∧
    packetPing.addresse = some cfgMy.login ∧
    (processPackets cfgMy pmNullReply [packetPing]).countP isUsageMsg = 0 ∧
    ¬(processPackets cfgMy pmNullReply [packetPing]).countP isUsageMsg = 1 := by
  refine ⟨rfl, rfl, by decide, by decide⟩

/-- C2 (amended): for any sequence of N content packets addressed to the
daemon for which the dispatcher returns an *empty* result sequence,
processing enqueues exactly N fallback usage-help messages to the tx
queue, one per packet, in packet-arrival order; a plugin returning
`NoReply` (`NULL_MESSAGE`), by contrast, marks the packet as replied-to
and suppresses the fallback. -/
theorem c2_usage_fallback_per_packet (cfg : Config)
    (pmRun : Packet → Except String (List PluginReply)) (ps : List Packet)
    (haddr : ∀ p ∈ ps, p.addresse = some cfg.login)
    (hnoack : ∀ p ∈ ps, p.response ≠ some "ack")
    (hempty : ∀ p ∈ ps, pmRun p = .ok []) :
    (processPackets cfg pmRun ps).filter isUsageMsg
      = ps.map fun p => OutMsg.text cfg.login p.fromcall usageReply := by
  induction ps with
  | nil => rfl
  | cons p rest ih =>
    rw [processPackets, List.flatMap_cons, List.filter_append]
    rw [processPacket_empty_results cfg pmRun p (haddr p (by simp))
      (hnoack p (by simp)) (hempty p (by simp))]
    have hrest := ih (fun q hq => haddr q (by simp [hq]))
      (fun q hq => hnoack q (by simp [hq])) (fun q hq => hempty q (by simp [hq]))
    rw [processPackets] at hrest
    rw [hrest, List.map_cons]
    simp [isUsageMsg]

/-- C2 witness: one packet, dispatcher returning the empty result list —
exactly one usage message, addressed to the packet's sender. -/
theorem c2_usage_fallback_per_packet_witness :
    (processPackets cfgMy pmEmptyReply [packetPing]).filter isUsageMsg
      = [packetPing].map fun p => OutMsg.text cfgMy.login p.fromcall usageReply :=
  c2_usage_fallback_per_packet cfgMy pmEmptyReply [packetPing]
    (by intro p hp; simp only [List.mem_singleton] at hp; subst hp; rfl)
    (by intro p hp; simp only [List.mem_singleton] at hp; subst hp; simp [packetPing])
    (by intro p hp; simp only [List.mem_singleton] at hp; subst hp; rfl)

/-! ### C3 — dispatch-failure isolation -/

/-- C3: when the dispatcher raises on a content packet, an addressed packet
yields the ack plus exactly one error notice, an unaddressed packet yields
no outbound messages at all, the `except Exception` handler keeps the
failure from propagating (the outcome is a total value), and the RX worker
goes on to process the subsequent packets of the stream. -/
theorem c3_dispatch_failure_isolated (cfg : Config)
    (pmRun : Packet → Except String (List PluginReply)) (p : Packet) (e : String)
    (hfail : pmRun p = .error e)
    (hnoack : ¬(p.addresse = some cfg.login ∧ p.response = some "ack")) :
    (p.addresse = some cfg.login →
      (processPacket cfg pmRun p).tx
        = [OutMsg.ack cfg.login p.fromcall (p.msgNo.getD "0"),
           OutMsg.text cfg.login p.fromcall pluginFailReply] ∧
      (processPacket cfg pmRun p).tx.countP isErrorNotice = 1) ∧
    (¬p.addresse = some cfg.login → (processPacket cfg pmRun p).tx = []) ∧
    (∀ ps : List Packet, processPackets cfg pmRun (p :: ps)
      = (processPacket cfg pmRun p).tx ++ processPackets cfg pmRun ps) := by
  refine ⟨?_, ?_, ?_⟩
  · intro haddr
    have htx : (processPacket cfg pmRun p).tx
        = [OutMsg.ack cfg.login p.fromcall (p.msgNo.getD "0"),
           OutMsg.text cfg.login p.fromcall pluginFailReply] := by
      rw [processPacket]
      rw [if_neg hnoack]
      rw [hfail]
      simp [haddr]
    refine ⟨htx, ?_⟩
    rw [htx]
    simp [List.countP_cons, isErrorNotice]
  · intro haddr
    rw [processPacket]
    rw [if_neg hnoack]
    rw [hfail]
    simp [haddr]
  · intro ps
    rw [processPackets, List.flatMap_cons]
    rfl

/-- C3 witness: the concrete addressed packet with a raising dispatcher
yields exactly one error notice on the tx queue. -/
theorem c3_dispatch_failure_isolated_witness :
    (processPacket cfgMy pmRaise packetPing).tx.countP isErrorNotice = 1 :=
  ((c3_dispatch_failure_isolated cfgMy pmRaise packetPing "boom" rfl
    (by simp [packetPing, cfgMy])).1 rfl).2

/-! ### C4 — ack packets drive the tracker and skip dispatch -/

/-- C4: a received packet addressed to the daemon whose response marker is
"ack" enqueues nothing, never reaches the dispatcher, bumps the
received-ack statistic, and removes exactly the tracker entry keyed by its
message id: every entry with a different key survives, every surviving
entry comes from the old table with a different key, and a table with no
matching key is left unchanged. -/
theorem c4_ack_removes_tracked_entry {α : Type} (cfg : Config)
    (pmRun : Packet → Except String (List PluginReply)) (p : Packet) (mid : String)
    (t : List (String × α))
    (haddr : p.addresse = some cfg.login) (hack : p.response = some "ack")
    (hmid : p.msgNo = some mid) :
    (processPacket cfg pmRun p).tx = [] ∧
    (processPacket cfg pmRun p).dispatched = false ∧
    (processPacket cfg pmRun p).ackRxInc = true ∧
    applyTracker t (processPacket cfg pmRun p) = t.filter (fun e => e.1 ≠ mid) ∧
    (∀ e ∈ t, e.1 ≠ mid → e ∈ applyTracker t (processPacket cfg pmRun p)) ∧
    (∀ e ∈ applyTracker t (processPacket cfg pmRun p), e ∈ t ∧ e.1 ≠ mid) ∧
    ((∀ e ∈ t, e.1 ≠ mid) → applyTracker t (processPacket cfg pmRun p) = t) := by
  have hout : processPacket cfg pmRun p
      = { tx := [], ackRemove := some p.msgNo, ackRxInc := true,
          msgsRxInc := true, dispatched := false } := by
    rw [processPacket]
    rw [if_pos ⟨haddr, hack⟩]
  have happ : applyTracker t (processPacket cfg pmRun p)
      = t.filter fun e => e.1 ≠ mid := by
    rw [hout, applyTracker]
    rw [hmid]
    rfl
  refine ⟨by rw [hout], by rw [hout], by rw [hout], happ, ?_, ?_, ?_⟩
  · intro e he hne
    rw [happ]
    rw [List.mem_filter]
    exact ⟨he, by simpa using hne⟩
  · intro e he
    rw [happ] at he
    rw [List.mem_filter] at he
    exact ⟨he.1, by simpa using he.2⟩
  · intro hnone
    rw [happ]
    exact List.filter_eq_self.mpr fun e he => by simpa using hnone e he

/-- C4 witness: acking message id 5 against a tracker holding ids 5 and 7
removes the id-5 entry and keeps the id-7 entry. -/
theorem c4_ack_removes_tracked_entry_witness :
    applyTracker [("5", "msg5"), ("7", "msg7")] (processPacket cfgMy pmEmptyReply packetAck)
      = [("7", "msg7")] := by
  rw [(c4_ack_removes_tracked_entry cfgMy pmEmptyReply packetAck "5"
    [("5", "msg5"), ("7", "msg7")] rfl rfl rfl).2.2.2.1]
  decide

/-! ### C5 — the ack precedes every plugin reply and is untracked -/

/-- C5: a content packet addressed to the daemon gets an ack outbound
message to the packet's sender, correlated with the packet's message id,
as the *first* item enqueued — before every plugin-produced reply and
before any usage fallback — and that ack's send never inserts it into the
MessageTracker. -/
theorem c5_ack_enqueued_first (cfg : Config)
    (pmRun : Packet → Except String (List PluginReply)) (p : Packet)
    (results : List PluginReply)
    (haddr : p.addresse = some cfg.login) (hnoack : p.response ≠ some "ack")
    (hok : pmRun p = .ok results) :
    (processPacket cfg pmRun p).tx
      = OutMsg.ack cfg.login p.fromcall (p.msgNo.getD "0")
        :: (replyMessages cfg.login p.fromcall results
            ++ if repliedFlag results = false
               then [OutMsg.text cfg.login p.fromcall usageReply] else []) ∧
    insertsIntoTracker (OutMsg.ack cfg.login p.fromcall (p.msgNo.getD "0")) = false := by
  refine ⟨?_, rfl⟩
  rw [processPacket]
  rw [if_neg (by simp [haddr, hnoack])]
  rw [hok]
  simp [haddr]

/-- C5 witness: the spec's end-to-end example — packet from N0CALL with id
5 and a PONG-replying plugin yields the ack to N0CALL correlated with id 5
first, then the PONG reply. -/
theorem c5_ack_enqueued_first_witness :
    (processPacket cfgMy pmPong packetPing).tx
      = OutMsg.ack cfgMy.login packetPing.fromcall (packetPing.msgNo.getD "0")
        :: (replyMessages cfgMy.login packetPing.fromcall [PluginReply.text "PONG"]
            ++ if repliedFlag [PluginReply.text "PONG"] = false
               then [OutMsg.text cfgMy.login packetPing.fromcall usageReply] else []) :=
  (c5_ack_enqueued_first cfgMy pmPong packetPing [PluginReply.text "PONG"]
    rfl (by simp [packetPing]) rfl).1

/-! ### C9 — watch-list filtering -/

/-- C9: with the watch list present, enabled and non-empty, the RX loop
sets the transport filter built from exactly the configured callsigns (and
does not warn), and a packet whose sender is not on the list is never among
the packets on which `PluginManager.run` is invoked; with the watch list
enabled but empty, the loop logs the configuration warning, sets no filter,
and processing proceeds unfiltered. -/
theorem c9_watch_list_filtering (cfg : WatchConfig) (rxCfg : Config)
    (pmRun : Packet → Except String (List PluginReply)) (c : ConsumeOutcome)
    (hpres : cfg.watchListPresent = true) (hen : cfg.enabled = true) :
    (cfg.callsigns ≠ [] →
      (rxLoop cfg c).filterStr = some ("p/" ++ String.intercalate "/" cfg.callsigns) ∧
      (rxLoop cfg c).warnedEmptyWatchList = false ∧
      watchFilter cfg = some cfg.callsigns ∧
      (∀ (arriving : List Packet) (p : Packet), p.fromcall ∉ cfg.callsigns →
        p ∉ dispatchedPackets rxCfg pmRun (watchFilter cfg) arriving)) ∧
    (cfg.callsigns = [] →
      (rxLoop cfg c).filterStr = none ∧
      (rxLoop cfg c).warnedEmptyWatchList = true ∧
      watchFilter cfg = none ∧
      (∀ arriving : List Packet, deliveredPackets (watchFilter cfg) arriving = arriving)) := by
  constructor
  · intro hne
    have hnemp : cfg.callsigns.isEmpty = false := by
      simpa [List.isEmpty_iff] using hne
    have hw : watchFilter cfg = some cfg.callsigns := by
      rw [watchFilter]
      rw [if_pos (by simp [hpres, hen, hnemp])]
    refine ⟨?_, ?_, hw, ?_⟩
    · cases c <;> simp [rxLoop, hpres, hen, hnemp]
    · cases c <;> simp [rxLoop, hpres, hen, hnemp]
    · intro arriving p hnotin hmem
      rw [hw] at hmem
      rw [dispatchedPackets] at hmem
      rw [List.mem_filter] at hmem
      rw [deliveredPackets] at hmem
      rw [List.mem_filter] at hmem
      exact hnotin (by simpa using hmem.1.2)
  · intro hemp
    have hw : watchFilter cfg = none := by
      rw [watchFilter]
      rw [if_neg (by simp [hemp])]
    refine ⟨?_, ?_, hw, ?_⟩
    · cases c <;> simp [rxLoop, hpres, hen, hemp]
    · cases c <;> simp [rxLoop, hpres, hen, hemp]
    · intro arriving
      rw [hw]
      rfl

/-- C9 witness: with watch list `["A", "B"]`, a packet from sender `C`
never reaches the dispatcher. -/
theorem c9_watch_list_filtering_witness :
    packetFromC ∉ dispatchedPackets cfgMy pmEmptyReply (watchFilter watchAB) [packetFromC] :=
  ((c9_watch_list_filtering watchAB cfgMy pmEmptyReply ConsumeOutcome.ok rfl rfl).1
    (by simp [watchAB])).2.2.2 [packetFromC] packetFromC (by decide)

end Aprsd
